import Mathlib

/-!
Shallow embedding of `src/streamlit.py` (Melanoma SLN Metastasis Predictor).

The script's core consists of:
* `load_model` (lines 30-61): resolution of a trained-model artifact over an
  ordered list of candidates — joblib at `MODEL_PATH`, pickle at `MODEL_PATH`
  with dict unwrapping under key "model", joblib at `ALTERNATIVE_MODEL_PATH` —
  with an outer try/except that reports failures via `st.error` and returns
  `None`;
* the startup guard (lines 65-67): `st.stop()` when `load_model` returns `None`;
* feature assembly (lines 91-100): a one-row DataFrame with the four encoded
  clinical fields, reindexed to `expected_columns`;
* the prediction block (lines 102-130): `model.predict_proba` on the one-row
  batch, `predicted_probs[0][1]` as the positive-class probability, the 0.5
  threshold for the High/Low risk label, and the per-request except handler.

Python objects relevant to resolution are modelled by `PyValue`: an opaque
object that either does or does not expose `predict_proba`, or a dict.
Filesystem/deserialization effects are modelled by an environment `Env` giving
the outcome (value or raised-exception message) of each `joblib.load` /
`open`+`pickle.load` call, keyed by path. Floats are modelled as rationals.
-/

/-- Python value as seen by the resolution code: an opaque object tagged with
whether it has a `predict_proba` attribute (plus an identity tag so distinct
model instances are distinguishable), or a dict of string-keyed entries. -/
inductive PyValue where
  | obj (hasPredictProba : Bool) (tag : Nat)
  | dict (entries : List (String × PyValue))

/-- Python `hasattr(v, "predict_proba")`: true exactly for an `obj` carrying
the capability; a plain dict instance has no such attribute. -/
def hasPredictProbaAttr : PyValue → Bool
  | .obj b _ => b
  | .dict _ => false

/-- Outcome of a deserialization call: the loaded value, or the message of the
exception it raised. -/
abbrev LoadOutcome := Except String PyValue

/-- Environment fixing what each deserialization primitive does at each path:
`joblibLoad p` is the outcome of `joblib.load(p)`, `pickleLoad p` the outcome
of `open(p, 'rb')` followed by `pickle.load`. -/
structure Env where
  joblibLoad : String → LoadOutcome
  pickleLoad : String → LoadOutcome

/-- Source line 26: `MODEL_PATH = Path('D:/anaconda3/envs/py312/best_mlp_model.pkl')`. -/
def MODEL_PATH : String := "D:/anaconda3/envs/py312/best_mlp_model.pkl"

/-- Source line 27: `ALTERNATIVE_MODEL_PATH = Path('D:/anaconda3/envs/py312/nnet_style_model.pkl')`. -/
def ALTERNATIVE_MODEL_PATH : String := "D:/anaconda3/envs/py312/nnet_style_model.pkl"

/-- One guarded joblib candidate (source lines 34-40 and 50-56): on load
success return the model when it has `predict_proba`; on load failure or a
missing capability, fall through (`except: pass` swallows the cause). -/
def tryJoblibCandidate (r : LoadOutcome) : Option PyValue :=
  match r with
  | .ok model => if hasPredictProbaAttr model then some model else none
  | .error _ => none

/-- The pickle branch's acceptance test (source lines 45-48): only a dict
containing the key "model" whose value has `predict_proba` yields a model;
any other loaded value falls through. -/
def pickleUnwrap (loaded_data : PyValue) : Option PyValue :=
  match loaded_data with
  | .dict entries =>
    match entries.lookup "model" with
    | some model => if hasPredictProbaAttr model then some model else none
    | none => none
  | _ => none

/-- Body of `load_model` inside the outer `try` (source lines 33-58): joblib at
`model_path` (guarded), then pickle at `model_path` (unguarded: a raised
exception propagates as `.error`), then joblib at `ALTERNATIVE_MODEL_PATH`
(guarded), else `raise Exception("No valid model found")`. -/
def load_model_body (env : Env) (model_path : String) : Except String PyValue :=
  match tryJoblibCandidate (env.joblibLoad model_path) with
  | some model => .ok model
  | none =>
    match env.pickleLoad model_path with
    | .error e => .error e
    | .ok loaded_data =>
      match pickleUnwrap loaded_data with
      | some model => .ok model
      | none =>
        match tryJoblibCandidate (env.joblibLoad ALTERNATIVE_MODEL_PATH) with
        | some model => .ok model
        | none => .error "No valid model found"

/-- Result of `load_model` as its caller sees it: a model instance, or `None`
after `st.error` displayed the given message. -/
inductive LoadResult where
  | found (model : PyValue)
  | noneErr (msg : String)

/-- Full `load_model` (source lines 30-61): the outer `except Exception as e`
turns any raised exception into `st.error(f"Model loading failed: {str(e)}")`
followed by `return None`. -/
def load_model (env : Env) (model_path : String) : LoadResult :=
  match load_model_body env model_path with
  | .ok model => .found model
  | .error e => .noneErr ("Model loading failed: " ++ e)

/-- Process phase after the startup guard (source lines 65-67): `Ready` with
the cached model, or `Stopped` (via `st.stop()`) after the error message was
shown. -/
inductive AppPhase where
  | Ready (model : PyValue)
  | Stopped (errMsg : String)

/-- Startup (source lines 65-67): `model = load_model(MODEL_PATH)`; if it is
`None` the script calls `st.stop()` and serves nothing. -/
def startApp (env : Env) : AppPhase :=
  match load_model env MODEL_PATH with
  | .found model => .Ready model
  | .noneErr e => .Stopped e

/-- The four raw clinical inputs as the form collects them (source lines
76-85): two sliders (reals, modelled as rationals) and two "No"/"Yes" radio
buttons (strings, as in the source's `subungual == "Yes"` comparisons). -/
structure ClinicalObservation where
  subungual : String
  breslow : ℚ
  ki67 : ℚ
  treatment : String

/-- The one-row DataFrame built at source lines 91-96, as an association list
of column name to the row's value, in construction order: `Subtype` is
`1 if subungual == "Yes" else 0`, `Breslow_Thickness` and `Ki67` pass through,
`Supplementary_Check` is `1 if treatment == "Yes" else 0`. -/
def input_data (o : ClinicalObservation) : List (String × ℚ) :=
  [("Subtype", if o.subungual = "Yes" then 1 else 0),
   ("Breslow_Thickness", o.breslow),
   ("Ki67", o.ki67),
   ("Supplementary_Check", if o.treatment = "Yes" then 1 else 0)]

/-- Source line 99: `expected_columns = ['Subtype', 'Breslow_Thickness',
'Ki67', 'Supplementary_Check']`. -/
def expected_columns : List String :=
  ["Subtype", "Breslow_Thickness", "Ki67", "Supplementary_Check"]

/-- Pandas column selection `df[cols]` (source line 100) on a one-row frame:
pick the requested columns, in the requested order, by name; `none` models the
`KeyError` pandas raises when a requested column is absent. -/
def reindex (df : List (String × ℚ)) : List String → Option (List (String × ℚ))
  | [] => some []
  | c :: cs =>
    match df.lookup c with
    | some v => (reindex df cs).map (fun rest => (c, v) :: rest)
    | none => none

/-- The feature vector handed to the model: the row of
`input_data[expected_columns]` (source lines 91-100). The default `[]` is dead:
`reindex` always succeeds here because `input_data` contains every expected
column (`reindex_input_data`). -/
def build (o : ClinicalObservation) : List ℚ :=
  (((reindex (input_data o) expected_columns).map
      (fun row => row.map Prod.snd)).getD [])

/-- The two risk labels the result markdown can report (source lines 110-116). -/
inductive Risk where
  | High
  | Low
deriving DecidableEq

/-- The threshold branch at source lines 110-116: `if probability >= 0.5` the
High-risk markdown is shown, else the Low-risk one. -/
def riskLabel (probability : ℚ) : Risk :=
  if probability ≥ 1/2 then .High else .Low

/-- The cached model's `predict_proba` as an effectful oracle: the first
argument indexes the invocation (0 for the first call the request makes), the
second is the batch, a list of feature-vector rows; the outcome is the matrix
of per-row class probabilities, or the message of a raised exception. -/
abbrev PModel := Nat → List (List ℚ) → Except String (List (List ℚ))

/-- Python `str(IndexError)` for an out-of-range list subscript, as produced by
`predicted_probs[0][1]` on a malformed result. -/
def indexErrorMsg : String := "list index out of range"

/-- Source line 130: the `st.info` hint shown beneath every prediction error. -/
def retryInfoMsg : String := "Please check your input values and try again"

/-- What one submitted request reports (source lines 102-130): the success
markdown with the probability and its risk label, or the `st.error` text of
the except-branch together with the `st.info` retry hint. -/
inductive RequestOutcome where
  | success (probability : ℚ) (label : Risk)
  | failure (errMsg : String) (infoMsg : String)

/-- The prediction block (source lines 102-130): call
`model.predict_proba(input_data)` on the single-row batch `[build o]` (the
request's first and only model invocation, index 0), read
`predicted_probs[0][1]`, label it with the threshold; any raised exception —
from the model call or from the indexing — reaches the except handler, which
shows `st.error(f"Prediction failed: {str(e)}")` and the retry hint. -/
def requestOutcome (model : PModel) (o : ClinicalObservation) : RequestOutcome :=
  match model 0 [build o] with
  | .error e => .failure ("Prediction failed: " ++ e) retryInfoMsg
  | .ok predicted_probs =>
    match predicted_probs with
    | [] => .failure ("Prediction failed: " ++ indexErrorMsg) retryInfoMsg
    | row :: _ =>
      match row.get? 1 with
      | none => .failure ("Prediction failed: " ++ indexErrorMsg) retryInfoMsg
      | some probability => .success probability (riskLabel probability)

/-- Process state while serving: the model cached by `@st.cache_resource` at
startup (source lines 30, 65). -/
structure ServerState where
  cachedModel : PModel

/-- One request round-trip at the process level: the submitted-form block
(source lines 90-130) reads the cached model and writes nothing, so the state
passes through unchanged. -/
def serveOne (st : ServerState) (o : ClinicalObservation) :
    RequestOutcome × ServerState :=
  (requestOutcome st.cachedModel o, st)

/-! Concrete fixtures: environments, observations and models used to
instantiate the theorems below at specific inputs. -/

/-- Observation used to instantiate the field-order property. -/
def obsW : ClinicalObservation := ⟨"Yes", 4, 20, "No"⟩

/-- Environment where every candidate fails: joblib raises "cause A"
everywhere, pickle loads a capability-free bare object. -/
def envA : Env := ⟨fun _ => .error "cause A", fun _ => .ok (.obj false 0)⟩

/-- Environment where every candidate fails with different causes than `envA`:
joblib raises "cause B" everywhere, pickle loads an empty dict. -/
def envB : Env := ⟨fun _ => .error "cause B", fun _ => .ok (.dict [])⟩

/-- Environment where the primary joblib load fails, the pickle read raises,
and the alternative-path joblib load would yield a valid model. -/
def envC4 : Env :=
  ⟨fun p => if p = ALTERNATIVE_MODEL_PATH then .ok (.obj true 3)
            else .error "primary joblib failed",
   fun _ => .error "pickle boom"⟩

/-- Environment whose first candidate yields a valid model (tag 1); the other
candidates would also behave sensibly. -/
def env5 : Env :=
  ⟨fun p => if p = MODEL_PATH then .ok (.obj true 1) else .ok (.obj true 2),
   fun _ => .error "pickle not reached"⟩

/-- Variant of `env5` agreeing on the first candidate but with entirely
different lower-priority candidates (a failing alternative path, a pickle
dict that would validate). -/
def env5' : Env :=
  ⟨fun p => if p = MODEL_PATH then .ok (.obj true 1) else .error "alt gone",
   fun _ => .ok (.dict [("model", .obj true 9)])⟩

/-- Environment where joblib always raises and pickle loads a bare model
object that has `predict_proba`. -/
def envC6 : Env := ⟨fun _ => .error "joblib err", fun _ => .ok (.obj true 7)⟩

/-- Environment where joblib always raises and pickle loads a dict wrapping a
valid model under the key "model". -/
def envC6w : Env :=
  ⟨fun _ => .error "joblib err", fun _ => .ok (.dict [("model", .obj true 5)])⟩

/-- Stub model answering every batch with the class probabilities
[0.3, 0.7] for one row. -/
def modelW : PModel := fun _ _ => .ok [[3/10, 7/10]]

/-- Observation for the end-to-end success instantiation. -/
def obs8 : ClinicalObservation := ⟨"No", 4, 0, "No"⟩

/-- Server state whose cached model raises on its first invocation but would
answer [0, 1] on any later one (a retry would have succeeded). -/
def stW : ServerState :=
  ⟨fun k _ => if k = 0 then .error "boom" else .ok [[0, 1]]⟩

/-- Observation for the failure-isolation instantiation. -/
def obs9 : ClinicalObservation := ⟨"Yes", 2, 30, "Yes"⟩

/-- Environment where joblib always raises and pickle loads a dict wrapping a
valid model (tag 4) under the key "model". -/
def envC4w : Env :=
  ⟨fun _ => .error "joblib nope", fun _ => .ok (.dict [("model", .obj true 4)])⟩

/-! Helper lemmas shared by the claim theorems. -/

/-- A guarded joblib candidate only ever yields a value with `predict_proba`. -/
theorem tryJoblibCandidate_hasattr {r : LoadOutcome} {m : PyValue}
    (h : tryJoblibCandidate r = some m) : hasPredictProbaAttr m = true := by
  cases r with
  | ok v =>
    by_cases hv : hasPredictProbaAttr v = true
    · simp only [tryJoblibCandidate, hv, if_true] at h
      cases h
      exact hv
    · simp [tryJoblibCandidate, hv] at h
  | error e => simp [tryJoblibCandidate] at h

/-- The pickle acceptance test only ever yields a value with `predict_proba`. -/
theorem pickleUnwrap_hasattr {v m : PyValue}
    (h : pickleUnwrap v = some m) : hasPredictProbaAttr m = true := by
  cases v with
  | obj b t => simp [pickleUnwrap] at h
  | dict es =>
    cases hl : es.lookup "model" with
    | none => simp [pickleUnwrap, hl] at h
    | some w =>
      by_cases hw : hasPredictProbaAttr w = true
      · simp only [pickleUnwrap, hl, hw, if_true] at h
        cases h
        exact hw
      · simp [pickleUnwrap, hl, hw] at h

/-- Whatever the environment, a model returned by the body of `load_model`
has `predict_proba`. -/
theorem load_model_body_ok {env : Env} {p : String} {m : PyValue}
    (h : load_model_body env p = .ok m) : hasPredictProbaAttr m = true := by
  unfold load_model_body at h
  cases h1 : tryJoblibCandidate (env.joblibLoad p) with
  | some m1 =>
    simp only [h1, Except.ok.injEq] at h
    exact h ▸ tryJoblibCandidate_hasattr h1
  | none =>
    simp only [h1] at h
    cases h2 : env.pickleLoad p with
    | error e => simp [h2] at h
    | ok v =>
      simp only [h2] at h
      cases h3 : pickleUnwrap v with
      | some m2 =>
        simp only [h3, Except.ok.injEq] at h
        exact h ▸ pickleUnwrap_hasattr h3
      | none =>
        simp only [h3] at h
        cases h4 : tryJoblibCandidate (env.joblibLoad ALTERNATIVE_MODEL_PATH) with
        | some m3 =>
          simp only [h4, Except.ok.injEq] at h
          exact h ▸ tryJoblibCandidate_hasattr h4
        | none => simp [h4] at h

/-- C10: For every input path, `load_model` never propagates an exception to
its caller: it returns either `None` (after reporting the failure via
`st.error`) or an object that has the `predict_proba` attribute; no other
value is ever returned. -/
theorem C10_load_model_total (env : Env) (p : String) :
    (∃ e, load_model env p = .noneErr e) ∨
    (∃ m, load_model env p = .found m ∧ hasPredictProbaAttr m = true) := by
  cases hb : load_model_body env p with
  | ok m =>
    right
    exact ⟨m, by simp [load_model, hb], load_model_body_ok hb⟩
  | error e =>
    left
    exact ⟨"Model loading failed: " ++ e, by simp [load_model, hb]⟩

/-- C1: the risk label is High exactly when the positive-class probability is
at least 0.5, Low exactly when it is strictly below 0.5, and a probability of
exactly 0.5 yields High. -/
theorem C1_threshold_policy :
    (∀ p : ℚ, (riskLabel p = Risk.High ↔ 1/2 ≤ p) ∧
              (riskLabel p = Risk.Low ↔ p < 1/2)) ∧
    riskLabel (1/2) = Risk.High := by
  refine ⟨fun p => ⟨?_, ?_⟩, ?_⟩
  · by_cases h : (1/2 : ℚ) ≤ p <;> simp [riskLabel, ge_iff_le, h]
  · by_cases h : (1/2 : ℚ) ≤ p
    · simp only [riskLabel, ge_iff_le, h, if_true]
      constructor
      · intro hc; cases hc
      · intro hc; exact absurd h (not_le.mpr hc)
    · simp [riskLabel, ge_iff_le, h, not_le.mp h]
  · simp [riskLabel]

/-- Selecting `expected_columns` from the constructed `input_data` frame
always succeeds and yields the canonical row. -/
theorem reindex_input_data (o : ClinicalObservation) :
    reindex (input_data o) expected_columns =
      some [("Subtype", if o.subungual = "Yes" then 1 else 0),
            ("Breslow_Thickness", o.breslow),
            ("Ki67", o.ki67),
            ("Supplementary_Check", if o.treatment = "Yes" then 1 else 0)] := by
  rfl

/-- C7: the builder encodes the booleans as No→0 / Yes→1, passes the numeric
fields through unchanged, and on the observation (subungual=No, breslow=4.0,
ki67=0.0, treatment=No) yields the vector [0, 4.0, 0.0, 0]. -/
theorem C7_encoding :
    (∀ o : ClinicalObservation,
       build o = [if o.subungual = "Yes" then 1 else 0, o.breslow, o.ki67,
                  if o.treatment = "Yes" then 1 else 0]) ∧
    build ⟨"No", 4, 0, "No"⟩ = [0, 4, 0, 0] := by
  constructor
  · intro o
    simp [build, reindex_input_data]
  · rfl

/-- Association lookup is invariant under permutation of a frame with
duplicate-free column names. -/
theorem lookup_perm_eq {β : Type} (a : String) {l1 l2 : List (String × β)}
    (h : l1.Perm l2) (nd : (l2.map Prod.fst).Nodup) :
    l1.lookup a = l2.lookup a := by
  induction h with
  | nil => rfl
  | cons x h2 ih =>
    obtain ⟨k, b⟩ := x
    simp only [List.map_cons, List.nodup_cons] at nd
    cases hak : a == k <;> simp only [List.lookup, hak]
    exact ih nd.2
  | swap x y l =>
    obtain ⟨k1, b1⟩ := x
    obtain ⟨k2, b2⟩ := y
    simp only [List.map_cons, List.nodup_cons, List.mem_cons] at nd
    cases ha1 : a == k1 <;> cases ha2 : a == k2 <;>
      simp only [List.lookup, ha1, ha2]
    exact absurd ((eq_of_beq ha1).symm.trans (eq_of_beq ha2))
      (fun hk => nd.1 (Or.inl hk))
  | trans h1 h2 ih1 ih2 =>
    have nd2 := ((h2.map Prod.fst).nodup_iff).mpr nd
    exact (ih1 nd2).trans (ih2 nd)

/-- Column selection returns the requested columns in the requested order. -/
theorem reindex_keys {df : List (String × ℚ)} :
    ∀ {cols out}, reindex df cols = some out → out.map Prod.fst = cols := by
  intro cols
  induction cols with
  | nil =>
    intro out h
    simp only [reindex, Option.some.injEq] at h
    rw [← h]
    rfl
  | cons c cs ih =>
    intro out h
    simp only [reindex] at h
    cases hl : df.lookup c with
    | none => rw [hl] at h; cases h
    | some v =>
      rw [hl] at h
      cases hr : reindex df cs with
      | none => rw [hr] at h; cases h
      | some rest =>
        rw [hr] at h
        have h2 : (c, v) :: rest = out := by simpa using h
        rw [← h2]
        simp only [List.map_cons, List.cons.injEq]
        exact ⟨trivial, ih hr⟩

/-- Column selection only depends on the frame through lookups, so it is
invariant under permutation of a duplicate-free frame. -/
theorem reindex_perm {df df' : List (String × ℚ)} (h : df.Perm df')
    (nd : (df'.map Prod.fst).Nodup) :
    ∀ cols, reindex df cols = reindex df' cols := by
  intro cols
  induction cols with
  | nil => rfl
  | cons c cs ih => simp only [reindex, lookup_perm_eq c h nd, ih]

/-- The constructed frame has duplicate-free column names. -/
theorem input_data_keys_nodup (o : ClinicalObservation) :
    ((input_data o).map Prod.fst).Nodup := by
  have hk : (input_data o).map Prod.fst = expected_columns := rfl
  rw [hk]
  decide

/-- C2: however the four-field frame was assembled (any permutation of the
constructed one), selecting `expected_columns` yields the same row as on the
canonically constructed frame, and any selected row lists the fields in
exactly the order [Subtype, Breslow_Thickness, Ki67, Supplementary_Check]
with the values of `build`. -/
theorem C2_canonical_order (o : ClinicalObservation) (df : List (String × ℚ))
    (h : df.Perm (input_data o)) :
    reindex df expected_columns = reindex (input_data o) expected_columns ∧
    ∀ out, reindex df expected_columns = some out →
      out.map Prod.fst = expected_columns ∧ out.map Prod.snd = build o := by
  have hre := reindex_perm h (input_data_keys_nodup o) expected_columns
  refine ⟨hre, fun out hout => ⟨reindex_keys hout, ?_⟩⟩
  rw [hre, reindex_input_data o] at hout
  cases hout
  simp [build, reindex_input_data]

/-- C2 instantiated: a frame supplied in fully reversed field order still
selects to the canonical row. -/
theorem C2_canonical_order_witness :
    ((input_data obsW).reverse).Perm (input_data obsW) ∧
    reindex ((input_data obsW).reverse) expected_columns =
      reindex (input_data obsW) expected_columns := by
  refine ⟨(input_data obsW).reverse_perm, ?_⟩
  exact (C2_canonical_order obsW ((input_data obsW).reverse)
    ((input_data obsW).reverse_perm)).1

/-- Reduction of `load_model` when the first candidate validates. -/
theorem load_model_cand1 {env : Env} {p : String} {m : PyValue}
    (h : tryJoblibCandidate (env.joblibLoad p) = some m) :
    load_model env p = .found m := by
  simp [load_model, load_model_body, h]

/-- Reduction of `load_model` when the first candidate falls through and the
pickle candidate loads and validates. -/
theorem load_model_cand2 {env : Env} {p : String} {v m : PyValue}
    (h1 : tryJoblibCandidate (env.joblibLoad p) = none)
    (h2 : env.pickleLoad p = .ok v) (h3 : pickleUnwrap v = some m) :
    load_model env p = .found m := by
  simp [load_model, load_model_body, h1, h2, h3]

/-- Reduction of `load_model` when the first candidate falls through and the
pickle read raises: the outer handler reports that exception's message and
the alternative-path candidate is never consulted. -/
theorem load_model_pickle_raise {env : Env} {p : String} {e : String}
    (h1 : tryJoblibCandidate (env.joblibLoad p) = none)
    (h2 : env.pickleLoad p = .error e) :
    load_model env p = .noneErr ("Model loading failed: " ++ e) := by
  simp [load_model, load_model_body, h1, h2]

/-- Reduction of `load_model` when the first two candidates fall through and
the alternative-path candidate validates. -/
theorem load_model_cand3 {env : Env} {p : String} {v m : PyValue}
    (h1 : tryJoblibCandidate (env.joblibLoad p) = none)
    (h2 : env.pickleLoad p = .ok v) (h3 : pickleUnwrap v = none)
    (h4 : tryJoblibCandidate (env.joblibLoad ALTERNATIVE_MODEL_PATH) = some m) :
    load_model env p = .found m := by
  simp [load_model, load_model_body, h1, h2, h3, h4]

/-- Reduction of `load_model` when every candidate falls through (the pickle
read not raising): the generic failure message. -/
theorem load_model_all_fail {env : Env} {p : String} {v : PyValue}
    (h1 : tryJoblibCandidate (env.joblibLoad p) = none)
    (h2 : env.pickleLoad p = .ok v) (h3 : pickleUnwrap v = none)
    (h4 : tryJoblibCandidate (env.joblibLoad ALTERNATIVE_MODEL_PATH) = none) :
    load_model env p = .noneErr "Model loading failed: No valid model found" := by
  simp [load_model, load_model_body, h1, h2, h3, h4]

/-- C5: resolution is priority-ordered with short-circuit. If the first
candidate deserializes and validates, its instance is returned, and the result
is unchanged under arbitrary replacement of the lower-priority candidates'
behavior (they are never consulted); likewise, if the first candidate falls
through and the pickle candidate validates, its instance is returned
independently of the alternative-path candidate. -/
theorem C5_priority_short_circuit (env env2 : Env) (p : String) :
    (∀ m, tryJoblibCandidate (env.joblibLoad p) = some m →
       load_model env p = .found m ∧
       (env2.joblibLoad p = env.joblibLoad p → load_model env2 p = .found m)) ∧
    (∀ v m, tryJoblibCandidate (env.joblibLoad p) = none →
       env.pickleLoad p = .ok v → pickleUnwrap v = some m →
       load_model env p = .found m ∧
       (env2.joblibLoad p = env.joblibLoad p →
        env2.pickleLoad p = env.pickleLoad p → load_model env2 p = .found m)) := by
  constructor
  · intro m h
    exact ⟨load_model_cand1 h, fun he => load_model_cand1 (by rw [he]; exact h)⟩
  · intro v m h1 h2 h3
    refine ⟨load_model_cand2 h1 h2 h3, fun he hp => ?_⟩
    exact load_model_cand2 (by rw [he]; exact h1) (by rw [hp]; exact h2) h3

/-- C5 instantiated: with a first candidate that validates (model tag 1), the
resolver returns that instance both in `env5` and in `env5'`, which differs
from `env5` in every lower-priority candidate (including one that would
validate a different model, tag 9). -/
theorem C5_priority_short_circuit_witness :
    load_model env5 MODEL_PATH = .found (.obj true 1) ∧
    load_model env5' MODEL_PATH = .found (.obj true 1) := by
  have h := (C5_priority_short_circuit env5 env5' MODEL_PATH).1 (.obj true 1) rfl
  exact ⟨h.1, h.2 rfl⟩

/-- C4 refutation at a concrete input: under `envC4` the first candidate
fails, the pickle read raises, and although the third candidate would
deserialize and validate (model tag 3), resolution aborts with the pickle
error instead of proceeding to it — contradicting "a deserialization error of
one candidate never aborts resolution". -/
theorem C4_counterexample :
    tryJoblibCandidate (envC4.joblibLoad ALTERNATIVE_MODEL_PATH) =
      some (.obj true 3) ∧
    envC4.pickleLoad MODEL_PATH = .error "pickle boom" ∧
    load_model envC4 MODEL_PATH = .noneErr "Model loading failed: pickle boom" := by
  refine ⟨rfl, rfl, ?_⟩
  exact load_model_pickle_raise rfl rfl

/-- C4 as amended: a failure of the first (joblib) candidate never aborts
resolution (the pickle candidate is attempted, and can succeed), and a pickle
candidate that loads but fails validation never aborts resolution (the
alternative-path candidate is attempted); but a deserialization error in the
pickle candidate aborts resolution immediately with that error, skipping the
alternative-path candidate; no failure cause is recorded along the way. -/
theorem C4_partial_continue (env : Env) (p : String)
    (h1 : tryJoblibCandidate (env.joblibLoad p) = none) :
    (∀ v m, env.pickleLoad p = .ok v → pickleUnwrap v = some m →
       load_model env p = .found m) ∧
    (∀ v m, env.pickleLoad p = .ok v → pickleUnwrap v = none →
       tryJoblibCandidate (env.joblibLoad ALTERNATIVE_MODEL_PATH) = some m →
       load_model env p = .found m) ∧
    (∀ e, env.pickleLoad p = .error e →
       load_model env p = .noneErr ("Model loading failed: " ++ e)) := by
  refine ⟨fun v m h2 h3 => load_model_cand2 h1 h2 h3,
          fun v m h2 h3 h4 => load_model_cand3 h1 h2 h3 h4,
          fun e h2 => load_model_pickle_raise h1 h2⟩

/-- C4 amended, instantiated: under `envC4w` the failed first candidate does
not prevent the pickle candidate from succeeding (model tag 4); under `envC4`
the pickle deserialization error is reported and aborts resolution. -/
theorem C4_partial_continue_witness :
    load_model envC4w MODEL_PATH = .found (.obj true 4) ∧
    load_model envC4 MODEL_PATH = .noneErr "Model loading failed: pickle boom" := by
  constructor
  · exact (C4_partial_continue envC4w MODEL_PATH rfl).1 _ _ rfl rfl
  · exact (C4_partial_continue envC4 MODEL_PATH rfl).2.2 "pickle boom" rfl

/-- C3 refutation at concrete inputs: `envA` and `envB` make every candidate
fail with different causes (joblib raising "cause A" versus "cause B", pickle
loading differently shaped invalid objects), yet `load_model` reports the one
fixed generic message in both — so the failure report does not carry the list
of per-candidate causes. -/
theorem C3_counterexample :
    envA.joblibLoad MODEL_PATH = .error "cause A" ∧
    envB.joblibLoad MODEL_PATH = .error "cause B" ∧
    "cause A" ≠ "cause B" ∧
    load_model envA MODEL_PATH =
      .noneErr "Model loading failed: No valid model found" ∧
    load_model envB MODEL_PATH =
      .noneErr "Model loading failed: No valid model found" := by
  refine ⟨rfl, rfl, by decide, ?_, ?_⟩
  · exact load_model_all_fail rfl rfl rfl rfl
  · exact load_model_all_fail rfl rfl rfl rfl

/-- C3 as amended: when every candidate fails, resolution fails and the
process never reaches `Ready` (it stops after reporting), but the report is
generic — the fixed string "Model loading failed: No valid model found" when
the pickle read does not raise, or the pickle exception's own message when it
does — rather than an error carrying the per-candidate causes. -/
theorem C3_stop_generic (env : Env)
    (h1 : tryJoblibCandidate (env.joblibLoad MODEL_PATH) = none)
    (h2 : ∀ v, env.pickleLoad MODEL_PATH = .ok v → pickleUnwrap v = none)
    (h3 : tryJoblibCandidate (env.joblibLoad ALTERNATIVE_MODEL_PATH) = none) :
    (∀ m, startApp env ≠ .Ready m) ∧
    (∀ v, env.pickleLoad MODEL_PATH = .ok v →
       startApp env = .Stopped "Model loading failed: No valid model found") ∧
    (∀ e, env.pickleLoad MODEL_PATH = .error e →
       startApp env = .Stopped ("Model loading failed: " ++ e)) := by
  refine ⟨?_, fun v hv => ?_, fun e he => ?_⟩
  · intro m hm
    cases hp : env.pickleLoad MODEL_PATH with
    | ok v =>
      rw [startApp, load_model_all_fail h1 hp (h2 v hp) h3] at hm
      cases hm
    | error e =>
      rw [startApp, load_model_pickle_raise h1 hp] at hm
      cases hm
  · rw [startApp, load_model_all_fail h1 hv (h2 v hv) h3]
  · rw [startApp, load_model_pickle_raise h1 he]

/-- C3 amended, instantiated at `envA`: the process stops with the generic
message and is not `Ready` with any model. -/
theorem C3_stop_generic_witness :
    startApp envA = .Stopped "Model loading failed: No valid model found" ∧
    ∀ m, startApp envA ≠ .Ready m := by
  have h := C3_stop_generic envA rfl (fun v hv => by cases hv; rfl) rfl
  exact ⟨h.2.1 _ rfl, h.1⟩

/-- C6 refutation at a concrete input: under `envC6` the pickle candidate's
deserialization succeeds with a bare (non-mapping) model object that has
`predict_proba`, yet resolution rejects it and fails — so the deserialized
value itself is not passed to the capability validator in the pickle branch;
only dict-wrapped models are considered there. -/
theorem C6_counterexample :
    envC6.pickleLoad MODEL_PATH = .ok (.obj true 7) ∧
    hasPredictProbaAttr (.obj true 7) = true ∧
    load_model envC6 MODEL_PATH =
      .noneErr "Model loading failed: No valid model found" := by
  refine ⟨rfl, rfl, ?_⟩
  exact load_model_all_fail rfl rfl rfl rfl

/-- C6 as amended: the joblib candidates validate the deserialized value
directly and never unwrap a container (a dict is simply rejected, having no
`predict_proba`); the pickle candidate considers only a mapping containing
the key "model", extracting and validating that nested field, while a bare
deserialized value or a mapping without the key is never validated — when
such a value is the pickle result, resolution skips to the alternative-path
candidate (failing if it fails) even when the bare value itself has the
capability. -/
theorem C6_unwrap_amended (env : Env) (p : String) :
    (∀ m, tryJoblibCandidate (.ok m) =
       if hasPredictProbaAttr m then some m else none) ∧
    (∀ b t, pickleUnwrap (.obj b t) = none) ∧
    (∀ es m, es.lookup "model" = some m →
       pickleUnwrap (.dict es) = if hasPredictProbaAttr m then some m else none) ∧
    (∀ es, es.lookup "model" = none → pickleUnwrap (.dict es) = none) ∧
    (∀ v m, tryJoblibCandidate (env.joblibLoad p) = none →
       env.pickleLoad p = .ok v → pickleUnwrap v = some m →
       load_model env p = .found m) ∧
    (∀ b t, tryJoblibCandidate (env.joblibLoad p) = none →
       env.pickleLoad p = .ok (.obj b t) →
       tryJoblibCandidate (env.joblibLoad ALTERNATIVE_MODEL_PATH) = none →
       load_model env p = .noneErr "Model loading failed: No valid model found") := by
  refine ⟨fun m => rfl, fun b t => rfl, fun es m hl => ?_, fun es hl => ?_,
          fun v m h1 h2 h3 => load_model_cand2 h1 h2 h3,
          fun b t h1 h2 h4 => load_model_all_fail h1 h2 rfl h4⟩
  · simp [pickleUnwrap, hl]
  · simp [pickleUnwrap, hl]

/-- C6 amended, instantiated: a dict-wrapped capable model (tag 5) is
extracted and returned, while the bare capable model of `envC6` is passed
over and resolution fails. -/
theorem C6_unwrap_amended_witness :
    load_model envC6w MODEL_PATH = .found (.obj true 5) ∧
    load_model envC6 MODEL_PATH =
      .noneErr "Model loading failed: No valid model found" := by
  constructor
  · exact (C6_unwrap_amended envC6w MODEL_PATH).2.2.2.2.1 _ _ rfl rfl rfl
  · exact (C6_unwrap_amended envC6 MODEL_PATH).2.2.2.2.2 true 7 rfl rfl rfl

/-- C8: the classifier invokes the model's probabilistic-classification
capability on the single-row batch `[build o]` (its first and only
invocation), takes the second class probability of the returned row as the
positive-class probability, and its outcome depends on the model only through
its response to that single-row batch. -/
theorem C8_positive_class (model : PModel) (o : ClinicalObservation)
    (p0 p1 : ℚ) (rest : List ℚ) (rows : List (List ℚ))
    (h : model 0 [build o] = .ok ((p0 :: p1 :: rest) :: rows)) :
    requestOutcome model o = .success p1 (riskLabel p1) ∧
    (∀ model2 : PModel, model2 0 [build o] = model 0 [build o] →
       requestOutcome model2 o = requestOutcome model o) := by
  constructor
  · simp [requestOutcome, h, List.get?]
  · intro model2 h2
    simp only [requestOutcome, h2]

/-- C8 instantiated: the stub model returning class probabilities [0.3, 0.7]
yields the positive-class probability 0.7 and the High label. -/
theorem C8_positive_class_witness :
    requestOutcome modelW obs8 = .success (7/10) (riskLabel (7/10)) ∧
    riskLabel (7/10) = Risk.High := by
  refine ⟨(C8_positive_class modelW obs8 (3/10) (7/10) [] [] rfl).1, ?_⟩
  rw [riskLabel, if_pos (by norm_num : (7/10 : ℚ) ≥ 1/2)]

/-- C9: when the model call raises, or returns a malformed result (no rows,
or a first row without a second entry), the request fails with the
`st.error`/`st.info` retry-safe messages; the failure is not retried (the
outcome is unchanged under arbitrary replacement of the model's behavior on
any later invocation or other batch); and the server state — the cached
model — passes through requests unchanged, so subsequent requests behave as
if the failing request had never happened. -/
theorem C9_failure_isolated (st : ServerState) (o : ClinicalObservation) :
    (∀ e, st.cachedModel 0 [build o] = .error e →
       (serveOne st o).1 =
         .failure ("Prediction failed: " ++ e) retryInfoMsg) ∧
    (∀ rows, st.cachedModel 0 [build o] = .ok rows →
       (∀ r rs, rows = r :: rs → r.get? 1 = none) →
       (serveOne st o).1 =
         .failure ("Prediction failed: " ++ indexErrorMsg) retryInfoMsg) ∧
    (serveOne st o).2 = st ∧
    (∀ o2, serveOne ((serveOne st o).2) o2 = serveOne st o2) ∧
    (∀ m2 : PModel, m2 0 [build o] = st.cachedModel 0 [build o] →
       (serveOne ⟨m2⟩ o).1 = (serveOne st o).1) := by
  refine ⟨fun e he => ?_, fun rows hr hm => ?_, rfl, fun o2 => rfl,
          fun m2 h2 => ?_⟩
  · simp [serveOne, requestOutcome, he]
  · cases rows with
    | nil => simp [serveOne, requestOutcome, hr]
    | cons r rs =>
      have hg : r.get? 1 = none := hm r rs rfl
      rw [List.get?_eq_getElem?] at hg
      simp [serveOne, requestOutcome, hr, hg]
  · simp only [serveOne, requestOutcome, h2]

/-- C9 instantiated: under `stW` — whose cached model raises "boom" on the
request's first invocation but would answer [0, 1] on a retry — the request
fails with the retry-safe messages, no retry happens, and the state is
unchanged. -/
theorem C9_failure_isolated_witness :
    (serveOne stW obs9).1 =
      .failure ("Prediction failed: " ++ "boom") retryInfoMsg ∧
    (serveOne stW obs9).2 = stW := by
  have h := C9_failure_isolated stW obs9
  exact ⟨h.1 "boom" rfl, h.2.2.1⟩
